import Mathlib

/-!
Shallow embedding of the Flights-Posting backend (FastAPI + SQLAlchemy CRUD
handlers) and proofs about its aggregate-maintenance, authorization and
soft-delete logic.

Conventions of the embedding:
* Python `float` columns are modelled by `ℚ` (the handlers only add, multiply
  and divide rating totals; no float-specific behaviour is claimed).
* `datetime` values are modelled by `Nat` (an abstract instant); the only
  operations the handlers perform on them are "set to now" and "is null".
* A nullable column is `Option _`.
* A handler that may raise `HTTPException` is modelled as a function returning
  `σ × Except HTTPError α` where `σ` is the database state it can touch: the
  first component is the state after the call (a raise happens before any
  mutation is committed, so on the `.error` branch the state is returned
  unchanged), the second is the returned value or the raised exception.
* `db.commit()` fires the `onupdate=func.now()` trigger of `Base.updated_at`
  on every mutated row; the embedding sets `updated_at := now` exactly where
  the handler mutates and commits a row.
-/

namespace FlightsPosting

/-- Model of a raised `fastapi.HTTPException`: a status code and a detail
message. -/
structure HTTPError where
  status_code : Nat
  detail : String
deriving Repr, DecidableEq

/-- Row of the `reviews` table (`app/models/review.py`): rating and optional
comment, keyed to a city and a user, with the `Base` timestamps. -/
structure Review where
  id : String
  city_id : String
  user_id : String
  rating : Int
  comment : Option String
  created_at : Nat
  updated_at : Nat
deriving Repr, DecidableEq

/-- Row of the `cities` table (`app/models/city.py`). `average_rating` is a
nullable `Float` column (default `0.0`), `review_count` a non-nullable
`Integer` (default `0`, only ever incremented by the handlers, hence `Nat`).
`deleted_at` is the soft-delete timestamp from `Base`. -/
structure City where
  id : String
  name : String
  country : String
  description : Option String
  latitude : Option ℚ
  longitude : Option ℚ
  average_rating : Option ℚ
  review_count : Nat
  created_at : Nat
  updated_at : Nat
  deleted_at : Option Nat
deriving Repr, DecidableEq

/-- Slice of the database visible to the review handlers: one `City` row and
the rows of the `reviews` table. The handlers under verification only read
and write reviews of this city, so states of interest satisfy
`∀ r ∈ reviews, r.city_id = city.id` (stated as a hypothesis where needed). -/
structure CityState where
  city : City
  reviews : List Review
deriving Repr, DecidableEq

/-- Python `x or 0` applied to the nullable float `average_rating`: `None`
gives `0`; `0.0` is falsy so it also gives `0`, which coincides with its own
value; any other float is returned unchanged. Hence on `Option ℚ` this is
exactly `Option.getD _ 0`. -/
def pyFloatOrZero : Option ℚ → ℚ
  | none => 0
  | some x => x

/-- Payload of `ReviewCreate` (`app/schemas/review.py`): a rating and an
optional comment. -/
structure ReviewCreate where
  rating : Int
  comment : Option String
deriving Repr, DecidableEq

/-- Payload of `ReviewUpdate` (`app/schemas/review.py`): both fields
optional. -/
structure ReviewUpdate where
  rating : Option Int
  comment : Option String
deriving Repr, DecidableEq

/-- Embedding of `add_review_to_city` (`app/handlers/city.py`). It first
queries for an existing review with this `city_id` and `user_id` and raises
400 if one exists; otherwise it builds the new review row, recomputes the
running total as `(average_rating or 0) * review_count`, stores
`new_total / new_count` and the incremented count, and commits. `review_id`
stands for the UUID the ORM generates for the new row. -/
def add_review_to_city (s : CityState) (review_in : ReviewCreate)
    (user_id : String) (review_id : String) (now : Nat) :
    CityState × Except HTTPError Review :=
  let existing := s.reviews.find? fun r =>
    r.city_id == s.city.id && r.user_id == user_id
  match existing with
  | some _ => (s, .error ⟨400, "You have already reviewed this city"⟩)
  | none =>
      let db_review : Review :=
        { id := review_id, city_id := s.city.id, user_id := user_id,
          rating := review_in.rating, comment := review_in.comment,
          created_at := now, updated_at := now }
      let current_total : ℚ :=
        pyFloatOrZero s.city.average_rating * (s.city.review_count : ℚ)
      let new_count : Nat := s.city.review_count + 1
      let new_total : ℚ := current_total + (review_in.rating : ℚ)
      let city := { s.city with
        average_rating := some (new_total / (new_count : ℚ)),
        review_count := new_count,
        updated_at := now }
      ({ city := city, reviews := s.reviews ++ [db_review] }, .ok db_review)

/-- Embedding of `update_review` (`app/handlers/city.py`). It fetches the
review by primary key; if it is missing or its `user_id` differs from the
caller it raises 404 `"Review not found"`; otherwise it applies the provided
fields, adds the rating delta to the running total
`(average_rating or 0) * review_count`, divides by the unchanged count, and
commits. -/
def update_review (s : CityState) (review_id : String) (user_id : String)
    (review_in : ReviewUpdate) (now : Nat) :
    CityState × Except HTTPError Review :=
  match s.reviews.find? fun r => r.id == review_id with
  | none => (s, .error ⟨404, "Review not found"⟩)
  | some db_review =>
      if db_review.user_id ≠ user_id then
        (s, .error ⟨404, "Review not found"⟩)
      else
        let old_rating := db_review.rating
        let new_rating := review_in.rating.getD old_rating
        let delta : Int := new_rating - old_rating
        let db_review2 : Review :=
          { db_review with
            rating := match review_in.rating with
              | some r => r
              | none => db_review.rating,
            comment := match review_in.comment with
              | some c => some c
              | none => db_review.comment,
            updated_at := now }
        let total_before : ℚ :=
          pyFloatOrZero s.city.average_rating * (s.city.review_count : ℚ)
        let total_after : ℚ := total_before + (delta : ℚ)
        let city := { s.city with
          average_rating := some (total_after / (s.city.review_count : ℚ)),
          updated_at := now }
        ({ city := city,
           reviews := s.reviews.map fun r =>
             if r.id == review_id then db_review2 else r },
         .ok db_review2)

/-- Embedding of `delete_city` (`app/handlers/city.py`): soft delete, a no-op
when `deleted_at` is already set (the commit only happens inside the `if`). -/
def delete_city (db_city : City) (now : Nat) : City :=
  if db_city.deleted_at = none then
    { db_city with deleted_at := some now, updated_at := now }
  else db_city

/-- Embedding of `restore_city` (`app/handlers/city.py`). The handler looks
the city up by id with no `deleted_at` filter; the argument is the row that
lookup found (`none` when absent). Result: the row after the call and the
Python return value (this handler returns the row unconditionally). -/
def restore_city (db_city : Option City) (now : Nat) :
    Option City × Option City :=
  match db_city with
  | some c =>
      if c.deleted_at ≠ none then
        let c2 := { c with deleted_at := none, updated_at := now }
        (some c2, some c2)
      else (some c, some c)
  | none => (none, none)

/-- Status enum of a flight (`app/models/flight.py`). -/
inductive FlightStatus where
  | scheduled
  | boarding
  | departed
  | arrived
  | delayed
  | canceled
deriving Repr, DecidableEq

/-- Row of the `flights` table (`app/models/flight.py`) with the `Base`
timestamps. -/
structure Flight where
  id : String
  flight_number : String
  airline : String
  description : Option String
  origin_city_id : String
  destination_city_id : String
  status : FlightStatus
  departure : Nat
  arrival : Nat
  created_at : Nat
  updated_at : Nat
  deleted_at : Option Nat
deriving Repr, DecidableEq

/-- Embedding of `soft_delete_flight` (`app/handlers/flight.py`): same
guarded soft delete as `delete_city`. -/
def soft_delete_flight (db_flight : Flight) (now : Nat) : Flight :=
  if db_flight.deleted_at = none then
    { db_flight with deleted_at := some now, updated_at := now }
  else db_flight

/-- Embedding of `restore_flight` (`app/handlers/flight.py`): the argument is
the row found by the id lookup. Unlike `restore_city`, it returns `None`
unless it actually restored a deleted row. -/
def restore_flight (db_flight : Option Flight) (now : Nat) :
    Option Flight × Option Flight :=
  match db_flight with
  | some f =>
      if f.deleted_at ≠ none then
        let f2 := { f with deleted_at := none, updated_at := now }
        (some f2, some f2)
      else (some f, none)
  | none => (none, none)

/-- Row of the `posts` table (`app/models/post.py`). `like_count` is a
non-nullable `Integer` column (a Python `int`, hence `Int`). -/
structure Post where
  id : String
  title : String
  description : String
  like_count : Int
  user_id : String
  flight_id : String
  created_at : Nat
  updated_at : Nat
  deleted_at : Option Nat
deriving Repr, DecidableEq

/-- Payload of `PostUpdate` (`app/schemas/post.py`): both fields optional;
`none` means the field was not sent (`exclude_unset`). -/
structure PostUpdate where
  title : Option String
  description : Option String
deriving Repr, DecidableEq

/-- Embedding of `update_post` (`app/handlers/post.py`): 403 unless the
caller is the author, otherwise apply the provided fields and commit. -/
def update_post (db_post : Post) (post_in : PostUpdate) (user_id : String)
    (now : Nat) : Post × Except HTTPError Post :=
  if db_post.user_id ≠ user_id then
    (db_post, .error ⟨403, "Not authorized to update this post"⟩)
  else
    let p := { db_post with
      title := post_in.title.getD db_post.title,
      description := post_in.description.getD db_post.description,
      updated_at := now }
    (p, .ok p)

/-- Embedding of `soft_delete_post` (`app/handlers/post.py`): 403 unless the
caller is the author; then the guarded soft delete (no commit when already
deleted). -/
def soft_delete_post (db_post : Post) (user_id : String) (now : Nat) :
    Post × Except HTTPError Post :=
  if db_post.user_id ≠ user_id then
    (db_post, .error ⟨403, "Not authorized to delete this post"⟩)
  else if db_post.deleted_at = none then
    let p := { db_post with deleted_at := some now, updated_at := now }
    (p, .ok p)
  else (db_post, .ok db_post)

/-- Embedding of `restore_post` (`app/handlers/post.py`): the argument is the
row found by the id lookup (no `deleted_at` filter). The author check only
runs when the row exists and is deleted; otherwise the handler returns
`None` without touching anything. -/
def restore_post (db_post : Option Post) (user_id : String) (now : Nat) :
    Option Post × Except HTTPError (Option Post) :=
  match db_post with
  | some p =>
      if p.deleted_at ≠ none then
        if p.user_id ≠ user_id then
          (some p, .error ⟨403, "Not authorized to restore this post"⟩)
        else
          let p2 := { p with deleted_at := none, updated_at := now }
          (some p2, .ok (some p2))
      else (some p, .ok none)
  | none => (none, .ok none)

/-- Row of the `comments` table (`app/models/comment.py`). -/
structure Comment where
  id : String
  content : String
  user_id : String
  post_id : String
  created_at : Nat
  updated_at : Nat
  deleted_at : Option Nat
deriving Repr, DecidableEq

/-- Payload of `CommentUpdate` (`app/schemas/comment.py`). -/
structure CommentUpdate where
  content : Option String
deriving Repr, DecidableEq

/-- Embedding of `update_comment` (`app/handlers/comment.py`): 403 unless the
caller is the author, otherwise apply the provided fields and commit. -/
def update_comment (db_comment : Comment) (comment_in : CommentUpdate)
    (user_id : String) (now : Nat) : Comment × Except HTTPError Comment :=
  if db_comment.user_id ≠ user_id then
    (db_comment, .error ⟨403, "Not authorized to update this comment"⟩)
  else
    let c := { db_comment with
      content := comment_in.content.getD db_comment.content,
      updated_at := now }
    (c, .ok c)

/-- Embedding of `soft_delete_comment` (`app/handlers/comment.py`). -/
def soft_delete_comment (db_comment : Comment) (user_id : String)
    (now : Nat) : Comment × Except HTTPError Comment :=
  if db_comment.user_id ≠ user_id then
    (db_comment, .error ⟨403, "Not authorized to delete this comment"⟩)
  else if db_comment.deleted_at = none then
    let c := { db_comment with deleted_at := some now, updated_at := now }
    (c, .ok c)
  else (db_comment, .ok db_comment)

/-- Embedding of `restore_comment` (`app/handlers/comment.py`): author check
first, then clear `deleted_at` when set, no-op when the comment is active. -/
def restore_comment (db_comment : Comment) (user_id : String) (now : Nat) :
    Comment × Except HTTPError Comment :=
  if db_comment.user_id ≠ user_id then
    (db_comment, .error ⟨403, "Not authorized to restore this comment"⟩)
  else if db_comment.deleted_at ≠ none then
    let c := { db_comment with deleted_at := none, updated_at := now }
    (c, .ok c)
  else (db_comment, .ok db_comment)

/-- Row of the `post_likes` table (`app/models/like.py`): the composite
primary key `(user_id, post_id)` is the whole identity of a like (the model
suppresses the inherited `id`); a claim about "the set of Like rows" is a
claim about this set of pairs, so the `Base` timestamp columns are elided. -/
structure Like where
  user_id : String
  post_id : String
deriving Repr, DecidableEq

/-- Embedding of `toggle_like_post` (`app/handlers/like.py`): look up the
like for `(post, user)`; if present delete that row and set
`like_count := max(0, like_count - 1)`, otherwise insert the row and
increment `like_count`; commit the post row either way. `likes` is the
`post_likes` table. -/
def toggle_like_post (likes : List Like) (db_post : Post)
    (user_id : String) (now : Nat) : List Like × Post :=
  let pred := fun l : Like => l.post_id == db_post.id && l.user_id == user_id
  match likes.find? pred with
  | some _ =>
      (likes.eraseP pred,
       { db_post with like_count := max 0 (db_post.like_count - 1),
                      updated_at := now })
  | none =>
      (likes ++ [{ user_id := user_id, post_id := db_post.id }],
       { db_post with like_count := db_post.like_count + 1,
                      updated_at := now })

/-- Row of the `users` table (`app/models/user.py`) with the `Base`
timestamps, `deleted_at` included. -/
structure User where
  id : String
  email : String
  hashed_password : String
  created_at : Nat
  updated_at : Nat
  deleted_at : Option Nat
deriving Repr, DecidableEq

/-- Embedding of `get_user_by_email` (`app/handlers/auth.py`): a plain
`filter(User.email == email).first()` with no `deleted_at` filter. -/
def get_user_by_email (db : List User) (email : String) : Option User :=
  db.find? fun u => u.email == email

/-- Embedding of `authenticate_user` (`app/handlers/auth.py`). The bcrypt
check `pwd_context.verify` is an external library call, passed in as the
oracle `verify_password` (plain password, stored hash ↦ match). -/
def authenticate_user (verify_password : String → String → Bool)
    (db : List User) (email password : String) : Except HTTPError User :=
  match get_user_by_email db email with
  | none => .error ⟨401, "Incorrect email or password"⟩
  | some user =>
      if verify_password password user.hashed_password then .ok user
      else .error ⟨401, "Incorrect email or password"⟩

/-- Outcome of `jose.jwt.decode` on a presented token, abstracting the
cryptography: `jwt_error` is true when decoding raises `JWTError` (bad
signature or expired), `sub` is the payload's `"sub"` claim if decoding
succeeds. -/
structure TokenPayload where
  sub : Option String
  jwt_error : Bool
deriving Repr, DecidableEq

/-- Payload of `TokenData` (`app/schemas/auth_token.py`). -/
structure TokenData where
  email : String
deriving Repr, DecidableEq

/-- Exception raised by the token-validation path
(`app/handlers/auth.py`, `get_current_active_user`). -/
def credentials_exception : HTTPError :=
  ⟨401, "Could not validate credentials"⟩

/-- Embedding of `verify_token` (`app/config/auth.py`): raise the supplied
exception on `JWTError` or a missing `"sub"` claim, otherwise return the
email as `TokenData`. -/
def verify_token (token : TokenPayload) (cred_exc : HTTPError) :
    Except HTTPError TokenData :=
  if token.jwt_error then .error cred_exc
  else
    match token.sub with
    | none => .error cred_exc
    | some email => .ok { email := email }

/-- Embedding of `get_current_active_user` (`app/handlers/auth.py`): verify
the token, then resolve the subject with `get_user_by_email`; 401 when the
lookup returns nothing. -/
def get_current_active_user (db : List User) (token : TokenPayload) :
    Except HTTPError User :=
  match verify_token token credentials_exception with
  | .error e => .error e
  | .ok token_data =>
      match get_user_by_email db token_data.email with
      | none => .error credentials_exception
      | some user => .ok user

/-- Keyword parameters accepted by `get_posts_paginated`
(`app/handlers/post.py`): `def get_posts_paginated(db, page, size, *,
flight_id=None)`. -/
def get_posts_paginated_params : List String :=
  ["db", "page", "size", "flight_id"]

/-- Keyword arguments the route `list_posts` (`app/routes/post.py`) passes in
its call `post_handler.get_posts_paginated(db=db, page=page, size=size,
flight_id=flight_id, q=q, author_id=author_id)`. -/
def list_posts_call_kwargs : List String :=
  ["db", "page", "size", "flight_id", "q", "author_id"]

/-- Keyword arguments of a Python call that the callee's signature does not
accept (the callee has no `**kwargs`). -/
def unexpected_kwargs (call sig : List String) : List String :=
  call.filter fun k => !(sig.contains k)

/-- Python semantics of binding a keyword-only call against a signature
without `**kwargs`: the call raises `TypeError` iff some keyword argument is
not a parameter name. -/
def py_kw_call_raises_type_error (call sig : List String) : Bool :=
  !(unexpected_kwargs call sig).isEmpty

/-! Theorems. -/

/-- C10: the public posts-listing route calls `get_posts_paginated` with the
keyword arguments `q` and `author_id`, which the handler's signature does not
accept, so by Python call-binding semantics every request to the endpoint
raises `TypeError` before any listing can be returned. -/
theorem list_posts_call_always_raises_type_error :
    py_kw_call_raises_type_error list_posts_call_kwargs
        get_posts_paginated_params = true ∧
    unexpected_kwargs list_posts_call_kwargs get_posts_paginated_params =
      ["q", "author_id"] := by
  constructor
  · rfl
  · rfl

/-- C4: when the caller already has a review for the city, a second
`add_review_to_city` fails with the 400 duplicate-review error (the Conflict
class of the spec's error taxonomy) and returns the state unchanged: the
city's `average_rating`, `review_count` and the `reviews` table are exactly
as before. -/
theorem add_review_duplicate_conflict (s : CityState)
    (review_in : ReviewCreate) (user_id review_id : String) (now : Nat)
    (r : Review) (hr : r ∈ s.reviews) (hcity : r.city_id = s.city.id)
    (huser : r.user_id = user_id) :
    add_review_to_city s review_in user_id review_id now =
      (s, .error ⟨400, "You have already reviewed this city"⟩) := by
  unfold add_review_to_city
  cases hfind : s.reviews.find? fun x =>
      x.city_id == s.city.id && x.user_id == user_id with
  | none =>
      exfalso
      have hnone := List.find?_eq_none.mp hfind r hr
      simp [hcity, huser] at hnone
  | some x => rfl

/-- Witness for C4 at a concrete state: the city "Paris" already holds a
review by user "A", and a second submission by "A" is rejected with the
duplicate error, state unchanged. -/
theorem add_review_duplicate_conflict_witness :
    add_review_to_city
      { city := { id := "c1", name := "Paris", country := "FR",
                  description := none, latitude := none, longitude := none,
                  average_rating := some 4, review_count := 1,
                  created_at := 0, updated_at := 0, deleted_at := none },
        reviews := [{ id := "r1", city_id := "c1", user_id := "A",
                      rating := 4, comment := none,
                      created_at := 0, updated_at := 0 }] }
      { rating := 5, comment := none } "A" "r2" 3 =
      ({ city := { id := "c1", name := "Paris", country := "FR",
                   description := none, latitude := none, longitude := none,
                   average_rating := some 4, review_count := 1,
                   created_at := 0, updated_at := 0, deleted_at := none },
         reviews := [{ id := "r1", city_id := "c1", user_id := "A",
                       rating := 4, comment := none,
                       created_at := 0, updated_at := 0 }] },
       .error ⟨400, "You have already reviewed this city"⟩) :=
  add_review_duplicate_conflict _ _ _ _ _
    { id := "r1", city_id := "c1", user_id := "A", rating := 4,
      comment := none, created_at := 0, updated_at := 0 }
    (by simp) rfl rfl

/-- Status of the `Except` result of a handler: the raised HTTP status code,
or `none` when the handler returned normally. -/
def errStatus {α : Type} : Except HTTPError α → Option Nat
  | .error e => some e.status_code
  | .ok _ => none

/-- Counterexample to C5: a review authored by "alice" updated by "bob"
fails with status 404 (`"Review not found"`), not with the claimed 403
authorization error. -/
theorem update_review_nonauthor_not_403_cex :
    errStatus (update_review
      { city := { id := "c5", name := "Rome", country := "IT",
                  description := none, latitude := none, longitude := none,
                  average_rating := some 4, review_count := 1,
                  created_at := 0, updated_at := 0, deleted_at := none },
        reviews := [{ id := "r5", city_id := "c5", user_id := "alice",
                      rating := 4, comment := none,
                      created_at := 0, updated_at := 0 }] }
      "r5" "bob" { rating := some 5, comment := none } 7).2 = some 404 ∧
    errStatus (update_review
      { city := { id := "c5", name := "Rome", country := "IT",
                  description := none, latitude := none, longitude := none,
                  average_rating := some 4, review_count := 1,
                  created_at := 0, updated_at := 0, deleted_at := none },
        reviews := [{ id := "r5", city_id := "c5", user_id := "alice",
                      rating := 4, comment := none,
                      created_at := 0, updated_at := 0 }] }
      "r5" "bob" { rating := some 5, comment := none } 7).2 ≠ some 403 := by
  constructor
  · rfl
  · decide

/-- C5 (amended): when a caller who is not the author updates an existing
review, `update_review` fails with 404 `"Review not found"` — the handler
folds the ownership check into the not-found check — and the state (city
aggregates and review rows) is unchanged. -/
theorem update_review_nonauthor_404 (s : CityState)
    (review_id user_id : String) (review_in : ReviewUpdate) (now : Nat)
    (r : Review)
    (hfind : (s.reviews.find? fun x => x.id == review_id) = some r)
    (hauthor : r.user_id ≠ user_id) :
    update_review s review_id user_id review_in now =
      (s, .error ⟨404, "Review not found"⟩) := by
  unfold update_review
  rw [hfind]
  simp [hauthor]

/-- Witness for C5 (amended) at the same concrete state as the
counterexample. -/
theorem update_review_nonauthor_404_witness :
    update_review
      { city := { id := "c5", name := "Rome", country := "IT",
                  description := none, latitude := none, longitude := none,
                  average_rating := some 4, review_count := 1,
                  created_at := 0, updated_at := 0, deleted_at := none },
        reviews := [{ id := "r5", city_id := "c5", user_id := "alice",
                      rating := 4, comment := none,
                      created_at := 0, updated_at := 0 }] }
      "r5" "bob" { rating := some 5, comment := none } 7 =
      ({ city := { id := "c5", name := "Rome", country := "IT",
                   description := none, latitude := none, longitude := none,
                   average_rating := some 4, review_count := 1,
                   created_at := 0, updated_at := 0, deleted_at := none },
         reviews := [{ id := "r5", city_id := "c5", user_id := "alice",
                       rating := 4, comment := none,
                       created_at := 0, updated_at := 0 }] },
       .error ⟨404, "Review not found"⟩) :=
  update_review_nonauthor_404 _ _ _ _ _
    { id := "r5", city_id := "c5", user_id := "alice", rating := 4,
      comment := none, created_at := 0, updated_at := 0 }
    (by rfl) (by decide)

/-- C6: each of `update_post`, `soft_delete_post`, `update_comment` and
`soft_delete_comment`, called by a user who is not the author, fails with
403 Forbidden and leaves the post or comment unchanged. -/
theorem nonauthor_mutations_forbidden (p : Post) (c : Comment)
    (post_in : PostUpdate) (comment_in : CommentUpdate) (u : String)
    (now : Nat) (hp : p.user_id ≠ u) (hc : c.user_id ≠ u) :
    update_post p post_in u now =
      (p, .error ⟨403, "Not authorized to update this post"⟩) ∧
    soft_delete_post p u now =
      (p, .error ⟨403, "Not authorized to delete this post"⟩) ∧
    update_comment c comment_in u now =
      (c, .error ⟨403, "Not authorized to update this comment"⟩) ∧
    soft_delete_comment c u now =
      (c, .error ⟨403, "Not authorized to delete this comment"⟩) := by
  refine ⟨?_, ?_, ?_, ?_⟩ <;>
    simp [update_post, soft_delete_post, update_comment,
      soft_delete_comment, hp, hc]

/-- Witness for C6 at a concrete post and comment authored by "ann", called
by "bob". -/
theorem nonauthor_mutations_forbidden_witness :
    update_post
        { id := "p6", title := "t", description := "d", like_count := 0,
          user_id := "ann", flight_id := "f6", created_at := 0,
          updated_at := 0, deleted_at := none }
        { title := some "x", description := none } "bob" 9 =
      ({ id := "p6", title := "t", description := "d", like_count := 0,
         user_id := "ann", flight_id := "f6", created_at := 0,
         updated_at := 0, deleted_at := none },
       .error ⟨403, "Not authorized to update this post"⟩) ∧
    soft_delete_post
        { id := "p6", title := "t", description := "d", like_count := 0,
          user_id := "ann", flight_id := "f6", created_at := 0,
          updated_at := 0, deleted_at := none } "bob" 9 =
      ({ id := "p6", title := "t", description := "d", like_count := 0,
         user_id := "ann", flight_id := "f6", created_at := 0,
         updated_at := 0, deleted_at := none },
       .error ⟨403, "Not authorized to delete this post"⟩) ∧
    update_comment
        { id := "m6", content := "hi", user_id := "ann", post_id := "p6",
          created_at := 0, updated_at := 0, deleted_at := none }
        { content := some "yo" } "bob" 9 =
      ({ id := "m6", content := "hi", user_id := "ann", post_id := "p6",
         created_at := 0, updated_at := 0, deleted_at := none },
       .error ⟨403, "Not authorized to update this comment"⟩) ∧
    soft_delete_comment
        { id := "m6", content := "hi", user_id := "ann", post_id := "p6",
          created_at := 0, updated_at := 0, deleted_at := none } "bob" 9 =
      ({ id := "m6", content := "hi", user_id := "ann", post_id := "p6",
         created_at := 0, updated_at := 0, deleted_at := none },
       .error ⟨403, "Not authorized to delete this comment"⟩) :=
  nonauthor_mutations_forbidden _ _
    { title := some "x", description := none } { content := some "yo" }
    "bob" 9 (by decide) (by decide)

/-- C7: for each soft-deletable entity, delete on an already-deleted row is a
no-op (same row back, no error, no commit) and restore on an already-active
row is a no-op. For Post and Comment the author check guards the operation,
so the no-op cases are stated for the author's own call; `restore_post`
skips even the author check on an active row. `restore_flight` and
`restore_post` return `None` in their no-op case but leave the row itself
untouched (the first pair component). -/
theorem soft_delete_restore_idempotent (c : City) (f : Flight) (p : Post)
    (cm : Comment) (u : String) (now : Nat) :
    (c.deleted_at ≠ none → delete_city c now = c) ∧
    (c.deleted_at = none → restore_city (some c) now = (some c, some c)) ∧
    (f.deleted_at ≠ none → soft_delete_flight f now = f) ∧
    (f.deleted_at = none → restore_flight (some f) now = (some f, none)) ∧
    (p.user_id = u → p.deleted_at ≠ none →
      soft_delete_post p u now = (p, .ok p)) ∧
    (p.deleted_at = none → restore_post (some p) u now = (some p, .ok none)) ∧
    (cm.user_id = u → cm.deleted_at ≠ none →
      soft_delete_comment cm u now = (cm, .ok cm)) ∧
    (cm.user_id = u → cm.deleted_at = none →
      restore_comment cm u now = (cm, .ok cm)) := by
  refine ⟨?_, ?_, ?_, ?_, ?_, ?_, ?_, ?_⟩ <;> intro h1
  · simp [delete_city, h1]
  · simp [restore_city, h1]
  · simp [soft_delete_flight, h1]
  · simp [restore_flight, h1]
  · intro h2; simp [soft_delete_post, h1, h2]
  · simp [restore_post, h1]
  · intro h2; simp [soft_delete_comment, h1, h2]
  · intro h2; simp [restore_comment, h1, h2]

/-- Witness for C7: a deleted city/flight/post/comment is deleted again and
an active one restored, each by its author where ownership applies, all
no-ops. -/
theorem soft_delete_restore_idempotent_witness :
    (delete_city
      { id := "c7", name := "Oslo", country := "NO", description := none,
        latitude := none, longitude := none, average_rating := some 0,
        review_count := 0, created_at := 0, updated_at := 0,
        deleted_at := some 2 } 9 =
      { id := "c7", name := "Oslo", country := "NO", description := none,
        latitude := none, longitude := none, average_rating := some 0,
        review_count := 0, created_at := 0, updated_at := 0,
        deleted_at := some 2 }) ∧
    (restore_flight
      (some { id := "f7", flight_number := "AB12", airline := "Acme",
              description := none, origin_city_id := "c7",
              destination_city_id := "c8", status := .scheduled,
              departure := 1, arrival := 2, created_at := 0,
              updated_at := 0, deleted_at := none }) 9 =
      (some { id := "f7", flight_number := "AB12", airline := "Acme",
              description := none, origin_city_id := "c7",
              destination_city_id := "c8", status := .scheduled,
              departure := 1, arrival := 2, created_at := 0,
              updated_at := 0, deleted_at := none }, none)) ∧
    (soft_delete_post
      { id := "p7", title := "t", description := "d", like_count := 1,
        user_id := "ann", flight_id := "f7", created_at := 0,
        updated_at := 0, deleted_at := some 3 } "ann" 9 =
      ({ id := "p7", title := "t", description := "d", like_count := 1,
         user_id := "ann", flight_id := "f7", created_at := 0,
         updated_at := 0, deleted_at := some 3 },
       .ok { id := "p7", title := "t", description := "d", like_count := 1,
             user_id := "ann", flight_id := "f7", created_at := 0,
             updated_at := 0, deleted_at := some 3 })) ∧
    (restore_comment
      { id := "m7", content := "hi", user_id := "ann", post_id := "p7",
        created_at := 0, updated_at := 0, deleted_at := none } "ann" 9 =
      ({ id := "m7", content := "hi", user_id := "ann", post_id := "p7",
         created_at := 0, updated_at := 0, deleted_at := none },
       .ok { id := "m7", content := "hi", user_id := "ann",
             post_id := "p7", created_at := 0, updated_at := 0,
             deleted_at := none })) := by
  have h := soft_delete_restore_idempotent
    { id := "c7", name := "Oslo", country := "NO", description := none,
      latitude := none, longitude := none, average_rating := some 0,
      review_count := 0, created_at := 0, updated_at := 0,
      deleted_at := some 2 }
    { id := "f7", flight_number := "AB12", airline := "Acme",
      description := none, origin_city_id := "c7",
      destination_city_id := "c8", status := .scheduled, departure := 1,
      arrival := 2, created_at := 0, updated_at := 0, deleted_at := none }
    { id := "p7", title := "t", description := "d", like_count := 1,
      user_id := "ann", flight_id := "f7", created_at := 0, updated_at := 0,
      deleted_at := some 3 }
    { id := "m7", content := "hi", user_id := "ann", post_id := "p7",
      created_at := 0, updated_at := 0, deleted_at := none } "ann" 9
  exact ⟨h.1 (by decide), h.2.2.2.1 rfl,
    h.2.2.2.2.1 rfl (by decide), h.2.2.2.2.2.2.2 rfl rfl⟩

/-- C8: deleting an active entity and then restoring it yields exactly the
original row with `deleted_at` cleared and `updated_at` advanced to the
restore instant: every other field (`created_at` included) is unchanged.
Stated for all four soft-deletable entities; Post and Comment are deleted
and restored by their author. -/
theorem delete_then_restore_roundtrip (c : City) (f : Flight) (p : Post)
    (cm : Comment) (u : String) (t1 t2 : Nat)
    (hc : c.deleted_at = none) (hf : f.deleted_at = none)
    (hp : p.deleted_at = none) (hpu : p.user_id = u)
    (hcm : cm.deleted_at = none) (hcmu : cm.user_id = u) :
    (restore_city (some (delete_city c t1)) t2).1 =
      some { c with deleted_at := none, updated_at := t2 } ∧
    (restore_flight (some (soft_delete_flight f t1)) t2).1 =
      some { f with deleted_at := none, updated_at := t2 } ∧
    (restore_post (some (soft_delete_post p u t1).1) u t2).1 =
      some { p with deleted_at := none, updated_at := t2 } ∧
    (restore_comment (soft_delete_comment cm u t1).1 u t2).1 =
      { cm with deleted_at := none, updated_at := t2 } := by
  refine ⟨?_, ?_, ?_, ?_⟩
  · simp [delete_city, restore_city, hc]
  · simp [soft_delete_flight, restore_flight, hf]
  · simp [soft_delete_post, restore_post, hp, hpu]
  · simp [soft_delete_comment, restore_comment, hcm, hcmu]

/-- Witness for C8 at concrete active entities, deleted at time 4 and
restored at time 8. -/
theorem delete_then_restore_roundtrip_witness :
    (restore_city (some (delete_city
      { id := "c8", name := "Kyiv", country := "UA", description := some "x",
        latitude := some 50, longitude := some 30, average_rating := some 4,
        review_count := 2, created_at := 1, updated_at := 1,
        deleted_at := none } 4)) 8).1 =
      some { id := "c8", name := "Kyiv", country := "UA",
             description := some "x", latitude := some 50,
             longitude := some 30, average_rating := some 4,
             review_count := 2, created_at := 1, updated_at := 8,
             deleted_at := none } ∧
    (restore_flight (some (soft_delete_flight
      { id := "f8", flight_number := "CD34", airline := "Blue",
        description := none, origin_city_id := "c8",
        destination_city_id := "c9", status := .delayed, departure := 5,
        arrival := 6, created_at := 1, updated_at := 1,
        deleted_at := none } 4)) 8).1 =
      some { id := "f8", flight_number := "CD34", airline := "Blue",
             description := none, origin_city_id := "c8",
             destination_city_id := "c9", status := .delayed,
             departure := 5, arrival := 6, created_at := 1, updated_at := 8,
             deleted_at := none } ∧
    (restore_post (some (soft_delete_post
      { id := "p8", title := "t8", description := "d8", like_count := 3,
        user_id := "ann", flight_id := "f8", created_at := 1,
        updated_at := 1, deleted_at := none } "ann" 4).1) "ann" 8).1 =
      some { id := "p8", title := "t8", description := "d8",
             like_count := 3, user_id := "ann", flight_id := "f8",
             created_at := 1, updated_at := 8, deleted_at := none } ∧
    (restore_comment (soft_delete_comment
      { id := "m8", content := "c8", user_id := "ann", post_id := "p8",
        created_at := 1, updated_at := 1, deleted_at := none }
      "ann" 4).1 "ann" 8).1 =
      { id := "m8", content := "c8", user_id := "ann", post_id := "p8",
        created_at := 1, updated_at := 8, deleted_at := none } :=
  delete_then_restore_roundtrip
    { id := "c8", name := "Kyiv", country := "UA", description := some "x",
      latitude := some 50, longitude := some 30, average_rating := some 4,
      review_count := 2, created_at := 1, updated_at := 1,
      deleted_at := none }
    { id := "f8", flight_number := "CD34", airline := "Blue",
      description := none, origin_city_id := "c8",
      destination_city_id := "c9", status := .delayed, departure := 5,
      arrival := 6, created_at := 1, updated_at := 1, deleted_at := none }
    { id := "p8", title := "t8", description := "d8", like_count := 3,
      user_id := "ann", flight_id := "f8", created_at := 1, updated_at := 1,
      deleted_at := none }
    { id := "m8", content := "c8", user_id := "ann", post_id := "p8",
      created_at := 1, updated_at := 1, deleted_at := none }
    "ann" 4 8 rfl rfl rfl rfl rfl rfl

/-- Counterexample to C9: a soft-deleted user (deleted_at set) still
authenticates with the correct password and still resolves from a valid
token — neither call fails with Unauthorized as the claim states. -/
theorem soft_deleted_user_authenticates_cex :
    ({ id := "u9", email := "carol@example.com", hashed_password := "hpw",
       created_at := 0, updated_at := 0,
       deleted_at := some 5 } : User).deleted_at ≠ none ∧
    authenticate_user (fun pw h => pw == "secret" && h == "hpw")
      [{ id := "u9", email := "carol@example.com", hashed_password := "hpw",
         created_at := 0, updated_at := 0, deleted_at := some 5 }]
      "carol@example.com" "secret" =
      .ok { id := "u9", email := "carol@example.com",
            hashed_password := "hpw", created_at := 0, updated_at := 0,
            deleted_at := some 5 } ∧
    get_current_active_user
      [{ id := "u9", email := "carol@example.com", hashed_password := "hpw",
         created_at := 0, updated_at := 0, deleted_at := some 5 }]
      { sub := some "carol@example.com", jwt_error := false } =
      .ok { id := "u9", email := "carol@example.com",
            hashed_password := "hpw", created_at := 0, updated_at := 0,
            deleted_at := some 5 } := by
  refine ⟨by decide, by rfl, by rfl⟩

/-- C9 (amended): authentication lookups do not filter on `deleted_at`:
whenever `get_user_by_email` resolves the email to a user — soft-deleted or
not — `authenticate_user` succeeds when the password verifies, and
`get_current_active_user` succeeds for a valid token whose subject is that
email. Stated with `u.deleted_at ≠ none` to exhibit the behaviour the
original claim denies. -/
theorem soft_deleted_user_still_authenticates
    (verify_password : String → String → Bool) (db : List User)
    (email password : String) (u : User) (tok : TokenPayload)
    (hlookup : get_user_by_email db email = some u)
    (_hdel : u.deleted_at ≠ none)
    (hpw : verify_password password u.hashed_password = true)
    (htok : tok.jwt_error = false) (hsub : tok.sub = some email) :
    authenticate_user verify_password db email password = .ok u ∧
    get_current_active_user db tok = .ok u := by
  constructor
  · unfold authenticate_user
    rw [hlookup]
    simp [hpw]
  · unfold get_current_active_user verify_token
    rw [htok]
    simp [hsub, hlookup]

/-- Witness for C9 (amended) at the concrete soft-deleted user of the
counterexample. -/
theorem soft_deleted_user_still_authenticates_witness :
    authenticate_user (fun pw h => pw == "secret" && h == "hpw")
      [{ id := "u9", email := "carol@example.com", hashed_password := "hpw",
         created_at := 0, updated_at := 0, deleted_at := some 5 }]
      "carol@example.com" "secret" =
      .ok { id := "u9", email := "carol@example.com",
            hashed_password := "hpw", created_at := 0, updated_at := 0,
            deleted_at := some 5 } ∧
    get_current_active_user
      [{ id := "u9", email := "carol@example.com", hashed_password := "hpw",
         created_at := 0, updated_at := 0, deleted_at := some 5 }]
      { sub := some "carol@example.com", jwt_error := false } =
      .ok { id := "u9", email := "carol@example.com",
            hashed_password := "hpw", created_at := 0, updated_at := 0,
            deleted_at := some 5 } :=
  soft_deleted_user_still_authenticates
    (fun pw h => pw == "secret" && h == "hpw")
    [{ id := "u9", email := "carol@example.com", hashed_password := "hpw",
       created_at := 0, updated_at := 0, deleted_at := some 5 }]
    "carol@example.com" "secret"
    { id := "u9", email := "carol@example.com", hashed_password := "hpw",
      created_at := 0, updated_at := 0, deleted_at := some 5 }
    { sub := some "carol@example.com", jwt_error := false }
    (by rfl) (by decide) (by rfl) rfl rfl

/-- C3: when the author of an existing review updates its rating from
`r.rating` to `r_new`, the city's new `average_rating` is
`(old_average * review_count + (r_new - r_old)) / review_count` and
`review_count` is unchanged (precondition `review_count ≥ 1`, which also
keeps the handler's division well defined). -/
theorem update_review_rating_delta (s : CityState)
    (review_id user_id : String) (r_new : Int) (new_comment : Option String)
    (now : Nat) (r : Review) (a : ℚ)
    (hfind : (s.reviews.find? fun x => x.id == review_id) = some r)
    (hauthor : r.user_id = user_id)
    (havg : s.city.average_rating = some a)
    (_hcount : 1 ≤ s.city.review_count) :
    (update_review s review_id user_id
        { rating := some r_new, comment := new_comment } now).1.city.review_count =
      s.city.review_count ∧
    (update_review s review_id user_id
        { rating := some r_new, comment := new_comment } now).1.city.average_rating =
      some ((a * (s.city.review_count : ℚ) + ((r_new : ℚ) - (r.rating : ℚ))) /
        (s.city.review_count : ℚ)) ∧
    errStatus (update_review s review_id user_id
        { rating := some r_new, comment := new_comment } now).2 = none := by
  unfold update_review
  rw [hfind]
  simp only [hauthor, ne_eq, not_true_eq_false, if_false, reduceIte]
  refine ⟨by simp, ?_, by simp [errStatus]⟩
  simp only [havg, pyFloatOrZero, Option.getD_some, Option.some_inj]
  push_cast
  ring_nf

/-- Witness for C3: the city holds two reviews averaging 3; "A" raises a
rating from 4 to 5, giving average (3*2 + 1)/2 = 7/2 with the count still
2. -/
theorem update_review_rating_delta_witness :
    (update_review
      { city := { id := "c3", name := "Lyon", country := "FR",
                  description := none, latitude := none, longitude := none,
                  average_rating := some 3, review_count := 2,
                  created_at := 0, updated_at := 0, deleted_at := none },
        reviews := [{ id := "r3", city_id := "c3", user_id := "A",
                      rating := 4, comment := none, created_at := 0,
                      updated_at := 0 },
                    { id := "r4", city_id := "c3", user_id := "B",
                      rating := 2, comment := none, created_at := 0,
                      updated_at := 0 }] }
      "r3" "A" { rating := some 5, comment := none } 6).1.city.review_count = 2 ∧
    (update_review
      { city := { id := "c3", name := "Lyon", country := "FR",
                  description := none, latitude := none, longitude := none,
                  average_rating := some 3, review_count := 2,
                  created_at := 0, updated_at := 0, deleted_at := none },
        reviews := [{ id := "r3", city_id := "c3", user_id := "A",
                      rating := 4, comment := none, created_at := 0,
                      updated_at := 0 },
                    { id := "r4", city_id := "c3", user_id := "B",
                      rating := 2, comment := none, created_at := 0,
                      updated_at := 0 }] }
      "r3" "A" { rating := some 5, comment := none } 6).1.city.average_rating =
      some ((3 * ((2 : Nat) : ℚ) + ((5 : ℚ) - ((4 : Int) : ℚ))) / ((2 : Nat) : ℚ)) ∧
    errStatus (update_review
      { city := { id := "c3", name := "Lyon", country := "FR",
                  description := none, latitude := none, longitude := none,
                  average_rating := some 3, review_count := 2,
                  created_at := 0, updated_at := 0, deleted_at := none },
        reviews := [{ id := "r3", city_id := "c3", user_id := "A",
                      rating := 4, comment := none, created_at := 0,
                      updated_at := 0 },
                    { id := "r4", city_id := "c3", user_id := "B",
                      rating := 2, comment := none, created_at := 0,
                      updated_at := 0 }] }
      "r3" "A" { rating := some 5, comment := none } 6).2 = none :=
  update_review_rating_delta
    { city := { id := "c3", name := "Lyon", country := "FR",
                description := none, latitude := none, longitude := none,
                average_rating := some 3, review_count := 2,
                created_at := 0, updated_at := 0, deleted_at := none },
      reviews := [{ id := "r3", city_id := "c3", user_id := "A",
                    rating := 4, comment := none, created_at := 0,
                    updated_at := 0 },
                  { id := "r4", city_id := "c3", user_id := "B",
                    rating := 2, comment := none, created_at := 0,
                    updated_at := 0 }] }
    "r3" "A" 5 none 6
    { id := "r3", city_id := "c3", user_id := "A", rating := 4,
      comment := none, created_at := 0, updated_at := 0 }
    3 (by rfl) rfl rfl (by decide)

/-- Counterexample to C2: starting from a reachable-in-principle but
inconsistent state — the like row for (post, user) exists while
`like_count = 0` — toggling twice leaves `like_count = 1`, not the original
0: the `max(0, ·)` floor loses the first decrement. -/
theorem toggle_like_twice_cex :
    (toggle_like_post
      (toggle_like_post [{ user_id := "u1", post_id := "p1" }]
        { id := "p1", title := "t", description := "d", like_count := 0,
          user_id := "ann", flight_id := "f1", created_at := 0,
          updated_at := 0, deleted_at := none } "u1" 1).1
      (toggle_like_post [{ user_id := "u1", post_id := "p1" }]
        { id := "p1", title := "t", description := "d", like_count := 0,
          user_id := "ann", flight_id := "f1", created_at := 0,
          updated_at := 0, deleted_at := none } "u1" 1).2
      "u1" 2).2.like_count = 1 ∧
    ({ id := "p1", title := "t", description := "d", like_count := 0,
       user_id := "ann", flight_id := "f1", created_at := 0,
       updated_at := 0, deleted_at := none } : Post).like_count = 0 := by
  constructor
  · rfl
  · rfl

/-- C2 (amended): toggling twice for the same (post, user) restores
`like_count` and leaves the set of Like rows unchanged, provided the state
is consistent where the code assumes it: at most one like row exists for
the pair (the composite primary key), `like_count ≥ 1` when the user's like
exists, and `like_count ≥ 0` when it does not. Without the `like_count`
conditions the `max(0, ·)` floor breaks the round trip (see the
counterexample). -/
theorem toggle_like_twice_restores (likes : List Like) (p : Post)
    (u : String) (t1 t2 : Nat)
    (hdup : (likes.filter fun l =>
      l.post_id == p.id && l.user_id == u).length ≤ 1)
    (hpresent : (likes.find? fun l =>
      l.post_id == p.id && l.user_id == u).isSome → 1 ≤ p.like_count)
    (hnonneg : 0 ≤ p.like_count) :
    (toggle_like_post (toggle_like_post likes p u t1).1
        (toggle_like_post likes p u t1).2 u t2).2.like_count =
      p.like_count ∧
    ∀ x : Like, x ∈ (toggle_like_post (toggle_like_post likes p u t1).1
        (toggle_like_post likes p u t1).2 u t2).1 ↔ x ∈ likes := by
  cases hfind : likes.find? fun l => l.post_id == p.id && l.user_id == u with
  | none =>
      have hany : (likes.any fun l =>
          l.post_id == p.id && l.user_id == u) = false := by
        rw [List.any_eq_false]
        exact List.find?_eq_none.mp hfind
      have hfind2 : ((likes ++ [({ user_id := u, post_id := p.id } : Like)]).find?
          fun l => l.post_id == p.id && l.user_id == u) =
          some { user_id := u, post_id := p.id } := by
        rw [List.find?_append, hfind]
        simp
      have herase : ((likes ++ [({ user_id := u, post_id := p.id } : Like)]).eraseP
          fun l => l.post_id == p.id && l.user_id == u) = likes := by
        rw [List.eraseP_append, hany]
        simp [List.eraseP_cons]
      constructor
      · simp only [toggle_like_post, hfind, hfind2]
        have h3 : max 0 (p.like_count + 1 - 1) = p.like_count := by
          rw [max_eq_right (by omega)]
          omega
        exact h3
      · intro x
        simp only [toggle_like_post, hfind, hfind2, herase]
  | some l0 =>
      have hcount : 1 ≤ p.like_count := hpresent (by rw [hfind]; rfl)
      have hl0mem : l0 ∈ likes := List.mem_of_find?_eq_some hfind
      have hl0p := List.find?_some hfind
      obtain ⟨a, l₁, l₂, hl₁, hpa, hsplit, herase⟩ :=
        @List.exists_of_eraseP Like
          (fun l => l.post_id == p.id && l.user_id == u) likes l0 hl0mem hl0p
      have haeq : a = ({ user_id := u, post_id := p.id } : Like) := by
        obtain ⟨hpost, huser⟩ := (Bool.and_eq_true _ _).mp hpa
        cases a
        simp_all
      have hl₂ : ∀ b ∈ l₂, ¬(b.post_id == p.id && b.user_id == u) = true := by
        have hfilter : (likes.filter fun l =>
            l.post_id == p.id && l.user_id == u).length =
            ((l₁ ++ a :: l₂).filter fun l =>
              l.post_id == p.id && l.user_id == u).length := by
          rw [← hsplit]
        rw [List.filter_append] at hfilter
        have hf1 : (l₁.filter fun l =>
            l.post_id == p.id && l.user_id == u) = [] :=
          List.filter_eq_nil_iff.mpr hl₁
        rw [hf1, @List.filter_cons_of_pos Like
          (fun l => l.post_id == p.id && l.user_id == u) a l₂ hpa] at hfilter
        simp only [List.nil_append, List.length_cons] at hfilter
        have hlen0 : (l₂.filter fun l =>
            l.post_id == p.id && l.user_id == u).length = 0 := by omega
        exact List.filter_eq_nil_iff.mp (List.length_eq_zero.mp hlen0)
      have hfind2 : ((likes.eraseP
          fun l => l.post_id == p.id && l.user_id == u).find?
          fun l => l.post_id == p.id && l.user_id == u) = none := by
        rw [herase, List.find?_eq_none]
        intro x hx
        rcases List.mem_append.mp hx with hx1 | hx2
        · exact hl₁ x hx1
        · exact hl₂ x hx2
      constructor
      · simp only [toggle_like_post, hfind, hfind2]
        have h3 : max 0 (p.like_count - 1) = p.like_count - 1 :=
          max_eq_right (by omega)
        rw [h3]
        omega
      · intro x
        simp only [toggle_like_post, hfind, hfind2]
        rw [herase, hsplit, haeq]
        simp only [List.mem_append, List.mem_cons, List.mem_singleton]
        tauto

/-- Witness for C2 (amended): a consistent state — one like row for the pair
and `like_count = 1` — double-toggled by the same user, ending with
`like_count = 1` and the same row set. -/
theorem toggle_like_twice_restores_witness :
    (toggle_like_post
      (toggle_like_post [{ user_id := "u1", post_id := "p2" }]
        { id := "p2", title := "t", description := "d", like_count := 1,
          user_id := "ann", flight_id := "f1", created_at := 0,
          updated_at := 0, deleted_at := none } "u1" 1).1
      (toggle_like_post [{ user_id := "u1", post_id := "p2" }]
        { id := "p2", title := "t", description := "d", like_count := 1,
          user_id := "ann", flight_id := "f1", created_at := 0,
          updated_at := 0, deleted_at := none } "u1" 1).2
      "u1" 2).2.like_count =
      ({ id := "p2", title := "t", description := "d", like_count := 1,
         user_id := "ann", flight_id := "f1", created_at := 0,
         updated_at := 0, deleted_at := none } : Post).like_count ∧
    ∀ x : Like, x ∈ (toggle_like_post
      (toggle_like_post [{ user_id := "u1", post_id := "p2" }]
        { id := "p2", title := "t", description := "d", like_count := 1,
          user_id := "ann", flight_id := "f1", created_at := 0,
          updated_at := 0, deleted_at := none } "u1" 1).1
      (toggle_like_post [{ user_id := "u1", post_id := "p2" }]
        { id := "p2", title := "t", description := "d", like_count := 1,
          user_id := "ann", flight_id := "f1", created_at := 0,
          updated_at := 0, deleted_at := none } "u1" 1).2
      "u1" 2).1 ↔ x ∈ [({ user_id := "u1", post_id := "p2" } : Like)] :=
  toggle_like_twice_restores [{ user_id := "u1", post_id := "p2" }]
    { id := "p2", title := "t", description := "d", like_count := 1,
      user_id := "ann", flight_id := "f1", created_at := 0, updated_at := 0,
      deleted_at := none }
    "u1" 1 2 (by decide) (fun _ => by decide) (by decide)

/-- One review submission against a city: the UUID the ORM will assign to
the new row, the submitting user and the rating. -/
structure Submission where
  review_id : String
  user_id : String
  rating : Int
deriving Repr, DecidableEq

/-- Runs a list of `add_review_to_city` submissions in order (each with an
empty comment), stopping at the first HTTP error, as a sequence of requests
against the same city would. -/
def run_review_adds (s : CityState) (subs : List Submission) (now : Nat) :
    Except HTTPError CityState :=
  match subs with
  | [] => .ok s
  | sub :: rest =>
      match add_review_to_city s { rating := sub.rating, comment := none }
          sub.user_id sub.review_id now with
      | (s2, .ok _) => run_review_adds s2 rest now
      | (_, .error e) => .error e

/-- Sum of the ratings of a list of review rows, as a rational. -/
def ratingsSum (rs : List Review) : ℚ := (rs.map fun r => (r.rating : ℚ)).sum

/-- Sum of the ratings of a list of submissions, as a rational. -/
def subsRatingsSum (subs : List Submission) : ℚ :=
  (subs.map fun x => (x.rating : ℚ)).sum

theorem pyFloatOrZero_some (x : ℚ) : pyFloatOrZero (some x) = x := rfl

theorem ratingsSum_append (rs : List Review) (r : Review) :
    ratingsSum (rs ++ [r]) = ratingsSum rs + (r.rating : ℚ) := by
  simp [ratingsSum]

theorem subsRatingsSum_cons (x : Submission) (l : List Submission) :
    subsRatingsSum (x :: l) = (x.rating : ℚ) + subsRatingsSum l := by
  simp [subsRatingsSum]

/-- Step lemma: when no review by `user_id` exists for the city,
`add_review_to_city` succeeds and performs the streaming-average update. -/
theorem add_review_to_city_fresh (s : CityState) (rating : Int)
    (user_id review_id : String) (now : Nat)
    (hfresh : ∀ r ∈ s.reviews, r.user_id ≠ user_id) :
    ∃ s1, add_review_to_city s { rating := rating, comment := none }
        user_id review_id now =
      (s1, .ok { id := review_id, city_id := s.city.id, user_id := user_id,
                 rating := rating, comment := none, created_at := now,
                 updated_at := now }) ∧
      s1.reviews = s.reviews ++
        [{ id := review_id, city_id := s.city.id, user_id := user_id,
           rating := rating, comment := none, created_at := now,
           updated_at := now }] ∧
      s1.city.review_count = s.city.review_count + 1 ∧
      s1.city.average_rating = some ((pyFloatOrZero s.city.average_rating *
        (s.city.review_count : ℚ) + (rating : ℚ)) /
        ((s.city.review_count + 1 : Nat) : ℚ)) := by
  have hfind : (s.reviews.find? fun r =>
      r.city_id == s.city.id && r.user_id == user_id) = none := by
    rw [List.find?_eq_none]
    intro r hr
    simp only [Bool.and_eq_true, beq_iff_eq, not_and]
    intro _
    exact hfresh r hr
  refine ⟨{ city := { s.city with
              average_rating := some ((pyFloatOrZero s.city.average_rating *
                (s.city.review_count : ℚ) + (rating : ℚ)) /
                ((s.city.review_count + 1 : Nat) : ℚ)),
              review_count := s.city.review_count + 1,
              updated_at := now },
            reviews := s.reviews ++
              [{ id := review_id, city_id := s.city.id, user_id := user_id,
                 rating := rating, comment := none, created_at := now,
                 updated_at := now }] }, ?_, rfl, rfl, rfl⟩
  unfold add_review_to_city
  simp only [hfind]

/-- Invariant lemma for C1: from any state whose running total
`(average_rating or 0) * review_count` equals the sum of the ratings on file
(trivially true when `review_count = 0`), a list of submissions by
pairwise-distinct users, none of whom has reviewed yet, all succeed, the
count grows by the number of submissions, and the final average is the
total divided by the final count. -/
theorem run_review_adds_ok (subs : List Submission) (s : CityState)
    (now : Nat)
    (htotal : pyFloatOrZero s.city.average_rating *
      (s.city.review_count : ℚ) = ratingsSum s.reviews)
    (hnodup : (subs.map Submission.user_id).Nodup)
    (hfresh : ∀ x ∈ subs, ∀ r ∈ s.reviews, r.user_id ≠ x.user_id) :
    ∃ s2, run_review_adds s subs now = .ok s2 ∧
      s2.city.review_count = s.city.review_count + subs.length ∧
      (subs ≠ [] → s2.city.average_rating =
        some ((ratingsSum s.reviews + subsRatingsSum subs) /
          ((s.city.review_count + subs.length : Nat) : ℚ))) := by
  induction subs generalizing s with
  | nil =>
      exact ⟨s, rfl, by simp, fun h => absurd rfl h⟩
  | cons sub rest ih =>
      have hfresh0 : ∀ r ∈ s.reviews, r.user_id ≠ sub.user_id :=
        fun r hr => hfresh sub (List.mem_cons_self _ _) r hr
      obtain ⟨s1, hadd, hrev1, hcount1, havg1⟩ :=
        add_review_to_city_fresh s sub.rating sub.user_id sub.review_id now
          hfresh0
      have hfreshHead : sub.user_id ∉ rest.map Submission.user_id :=
        (List.nodup_cons.mp hnodup).1
      have hnodup1 : (rest.map Submission.user_id).Nodup :=
        (List.nodup_cons.mp hnodup).2
      have htotal1 : pyFloatOrZero s1.city.average_rating *
          (s1.city.review_count : ℚ) = ratingsSum s1.reviews := by
        rw [hrev1, ratingsSum_append, havg1, hcount1, pyFloatOrZero_some]
        rw [div_mul_cancel₀ _ (Nat.cast_ne_zero.mpr (by omega)), htotal]
      have hfresh1 : ∀ x ∈ rest, ∀ r ∈ s1.reviews, r.user_id ≠ x.user_id := by
        intro x hx r hr
        rw [hrev1] at hr
        rcases List.mem_append.mp hr with h | h
        · exact hfresh x (List.mem_cons_of_mem _ hx) r h
        · rw [List.mem_singleton.mp h]
          show sub.user_id ≠ x.user_id
          intro hcontra
          apply hfreshHead
          rw [hcontra]
          exact List.mem_map_of_mem _ hx
      obtain ⟨s2, hrun2, hcount2, havg2⟩ := ih s1 htotal1 hnodup1 hfresh1
      have hstep : run_review_adds s (sub :: rest) now =
          run_review_adds s1 rest now := by
        simp only [run_review_adds, hadd]
      refine ⟨s2, ?_, ?_, ?_⟩
      · rw [hstep]
        exact hrun2
      · rw [hcount2, hcount1, List.length_cons]
        omega
      · intro _
        rcases eq_or_ne rest [] with hrest | hrest
        · subst hrest
          have hs12 : Except.ok (ε := HTTPError) s1 = .ok s2 := by
            rw [← hrun2]
            rfl
          have hs12' : s1 = s2 := by
            injection hs12
          rw [← hs12', havg1, htotal]
          simp [subsRatingsSum]
        · rw [havg2 hrest, hrev1, ratingsSum_append, hcount1]
          rw [Option.some_inj]
          simp only [subsRatingsSum_cons, List.length_cons]
          push_cast
          ring
      -- end cons

/-- C1: starting from a city with `review_count = 0` and no reviews, a
non-empty sequence of successful review submissions by pairwise-distinct
users with ratings r1..rN leaves `average_rating = (r1 + ⋯ + rN) / N` (the
mean) and `review_count = N`. -/
theorem add_reviews_average_is_mean (s : CityState) (subs : List Submission)
    (now : Nat) (hcount : s.city.review_count = 0)
    (hreviews : s.reviews = [])
    (hnodup : (subs.map Submission.user_id).Nodup) (hne : subs ≠ []) :
    ∃ s2, run_review_adds s subs now = .ok s2 ∧
      s2.city.review_count = subs.length ∧
      s2.city.average_rating =
        some (subsRatingsSum subs / (subs.length : ℚ)) := by
  obtain ⟨s2, hrun, hc, ha⟩ := run_review_adds_ok subs s now
    (by rw [hcount, hreviews]; simp [ratingsSum])
    hnodup
    (by rw [hreviews]; intro x hx r hr; cases hr)
  refine ⟨s2, hrun, ?_, ?_⟩
  · rw [hc, hcount, Nat.zero_add]
  · rw [ha hne, hreviews, hcount]
    simp [ratingsSum]

/-- Witness for C1 with the spec's own example: ratings 4 (user A) then
2 (user B) on a fresh city give count 2 and average (4 + 2) / 2 = 3. -/
theorem add_reviews_average_is_mean_witness :
    ∃ s2, run_review_adds
      { city := { id := "c1", name := "Paris", country := "FR",
                  description := none, latitude := none, longitude := none,
                  average_rating := some 0, review_count := 0,
                  created_at := 0, updated_at := 0, deleted_at := none },
        reviews := [] }
      [{ review_id := "r1", user_id := "A", rating := 4 },
       { review_id := "r2", user_id := "B", rating := 2 }] 0 = .ok s2 ∧
      s2.city.review_count =
        ([{ review_id := "r1", user_id := "A", rating := 4 },
          { review_id := "r2", user_id := "B", rating := 2 }] :
          List Submission).length ∧
      s2.city.average_rating =
        some (subsRatingsSum
          [{ review_id := "r1", user_id := "A", rating := 4 },
           { review_id := "r2", user_id := "B", rating := 2 }] /
          (([{ review_id := "r1", user_id := "A", rating := 4 },
             { review_id := "r2", user_id := "B", rating := 2 }] :
             List Submission).length : ℚ)) :=
  add_reviews_average_is_mean
    { city := { id := "c1", name := "Paris", country := "FR",
                description := none, latitude := none, longitude := none,
                average_rating := some 0, review_count := 0,
                created_at := 0, updated_at := 0, deleted_at := none },
      reviews := [] }
    [{ review_id := "r1", user_id := "A", rating := 4 },
     { review_id := "r2", user_id := "B", rating := 2 }] 0
    rfl rfl (by decide) (by decide)

end FlightsPosting
